import Mathlib

/-!
Verification development for the `iohandler` repository.

The development shallowly embeds the two source modules:
  * `src/iotools/misc/script.py` — the `FunctionSpec` classifier, the
    `NestedPrintLog` logger, the `ScriptProfiler` decorator and the
    `ScriptMeta` constructor wrapper;
  * `src/iotools/gui/widget/widget.py` — the `Widget.from_argument`
    dispatch table.

Stateful Python code is embedded as explicit state passing.  A Python
call that can raise is modelled by `PyResult`, which carries the state
at the moment of the raise (Python exceptions do not roll state back).
Machine-level collaborators that are external to the repository (the
clock, the filesystem path machinery, the pickling mechanism) appear as
explicit parameters.
-/

set_option autoImplicit false

/-- Outcome of running a block of Python code over a state of type `σ`:
either the block returns normally with a final state, or it raises an
exception (identified by a string) leaving the state as it was at the
moment of the raise. -/
inductive PyResult (σ : Type) : Type where
  | ok : σ → PyResult σ
  | raised : String → σ → PyResult σ
  deriving Repr, DecidableEq

/-- The state a block left behind, whether it returned or raised. -/
def PyResult.state {σ : Type} : PyResult σ → σ
  | .ok s => s
  | .raised _ s => s

/-- `s * n` for Python strings: `n` copies of `s` concatenated. -/
def strRepeat (s : String) : Nat → String
  | 0 => ""
  | n + 1 => s ++ strRepeat s n

/-- State of a `NestedPrintLog` (src/iotools/misc/script.py, class
`NestedPrintLog`).  The two output channels are modelled as the lists of
strings written to them so far.  The `path`, `to_stream`, `to_file`,
`indentation_token` and `indentation_level` fields mirror the instance
attributes set by the constructor. -/
structure NestedPrintLog where
  path : String
  to_stream : Bool
  to_file : Bool
  indentation_token : String
  indentation_level : Nat
  stream_out : List String
  file_out : List String
  deriving Repr, DecidableEq

/-- `NestedPrintLog.__init__`: `active` is accepted (and forwarded to the
base class) but plays no role in the behaviour modelled here; the
indentation level starts at 0 and the channels start empty. -/
def NestedPrintLog.init (path : String) (active to_stream to_file : Bool)
    (indentation_token : String) : NestedPrintLog :=
  let _ := active
  { path := path
    to_stream := to_stream
    to_file := to_file
    indentation_token := indentation_token
    indentation_level := 0
    stream_out := []
    file_out := [] }

/-- Modelled from the spec: `PrintLog.write` (class `PrintLog` lives in
`src/iotools/misc/log.py`, which is not under `src/`).  Per the spec,
writing to the stream destination emits the given text as-is on the
stream channel, and writing to the file destination appends the given
text to the file channel; `add_newlines` appends that many blank lines
after the text. -/
def PrintLog.write (log : NestedPrintLog) (text : String)
    (to_stream to_file : Bool) (add_newlines : Nat) : NestedPrintLog :=
  let payload := text ++ strRepeat "\n" add_newlines
  { log with
    stream_out := if to_stream then log.stream_out ++ [payload] else log.stream_out
    file_out := if to_file then log.file_out ++ [payload] else log.file_out }

/-- The prefixed rendering a `NestedPrintLog` applies to text bound for
the file channel (`NestedPrintLog.write`, file branch): every non-empty
line is prefixed with the timestamp, a separator, and the indentation
token repeated `indentation_level` times; empty lines are left as-is.
`now` stands for `DateTime.now().to_logformat()`. -/
def NestedPrintLog.file_render (log : NestedPrintLog) (now text : String) : String :=
  let pref := now ++ " - " ++ strRepeat log.indentation_token log.indentation_level
  String.intercalate "\n" ((text.splitOn "\n").map fun line =>
    if line = "" then "" else pref ++ line)

/-- `NestedPrintLog.write`: each destination flag, when `none`, falls
back to the corresponding attribute of the logger; the stream channel
receives the raw text; the file channel receives the prefixed rendering. -/
def NestedPrintLog.write (log : NestedPrintLog) (now text : String)
    (to_stream to_file : Option Bool) (add_newlines : Nat) : NestedPrintLog :=
  let log1 :=
    if to_stream.getD log.to_stream then
      PrintLog.write log text true false add_newlines
    else log
  if to_file.getD log1.to_file then
    PrintLog.write log1 (log1.file_render now text) false true add_newlines
  else log1

/-- `NestedPrintLog.indentation`: a `@contextmanager` generator with a
bare `yield`.  Entering increments `indentation_level`.  The decrement
after the `yield` runs only when the block completes normally: when the
block raises, the exception is thrown into the generator at the `yield`
point, the generator does not resume past it, and the exception
propagates with the level still incremented. -/
def NestedPrintLog.indentation (log : NestedPrintLog)
    (body : NestedPrintLog → PyResult NestedPrintLog) : PyResult NestedPrintLog :=
  match body { log with indentation_level := log.indentation_level + 1 } with
  | .ok s => .ok { s with indentation_level := s.indentation_level - 1 }
  | .raised e s => .raised e s

/-- `NestedPrintLog.reset_output_channels_soon`: a `@contextmanager`
generator with a bare `yield`.  The two channel flags are snapshotted
before the `yield`; the restore after the `yield` runs only when the
block completes normally, so a block that raises leaves the flags as the
block last set them. -/
def NestedPrintLog.reset_output_channels_soon (log : NestedPrintLog)
    (body : NestedPrintLog → PyResult NestedPrintLog) : PyResult NestedPrintLog :=
  let saved_to_stream := log.to_stream
  let saved_to_file := log.to_file
  match body log with
  | .ok s => .ok { s with to_stream := saved_to_stream, to_file := saved_to_file }
  | .raised e s => .raised e s

/-- Default values an argument descriptor can carry (the external
argument library constructs descriptors over strings, booleans, numbers
and structured values; only their identity matters here). -/
inductive Value : Type where
  | vNone
  | vBool : Bool → Value
  | vInt : Int → Value
  | vStr : String → Value
  deriving Repr, DecidableEq

/-- Kind of an argument descriptor: one constructor per `Argument`
subclass named in `Widget.from_argument`
(src/iotools/gui/widget/widget.py), plus `other` for any `Argument`
subclass matched by none of the `isinstance` tests; `other` carries the
class name used in the error message. -/
inductive ArgKind : Type where
  | string
  | boolean
  | integer
  | float
  | file
  | dir
  | dateTime
  | date
  | list
  | dict
  | other : String → ArgKind
  deriving Repr, DecidableEq

/-- An argument descriptor as consumed by `Widget.from_argument`:
its kind, its `choices` set (`none` models Python `None`), its
`default`, its `widget_magnitude` hint (`none` models Python `None`),
and whether `validator.deep_type == (str, bool)` holds (only consulted
for dictionary descriptors). -/
structure Argument where
  kind : ArgKind
  choices : Option (List Value)
  default : Option Value
  widget_magnitude : Option Nat
  deep_type_is_str_bool : Bool
  deriving Repr, DecidableEq

/-- The widget handler constructed by `Widget.from_argument`: one
constructor per widget class instantiated there, carrying the state the
source passes to it. -/
inductive WidgetHandler : Type where
  | DropDown (choices : List Value) (state : Option Value)
  | CheckBar (choices : Option Value)
  | Checkbox (state : Value)
  | IntEntry (state : Option Value)
  | FloatEntry (state : Option Value)
  | FileSelect (state : Option Value)
  | DirSelect (state : Option Value)
  | DateTimeEdit (state : Option Value) (magnitude : Option Nat)
  | Calendar (state : Option Value)
  | Text (state : Option Value) (magnitude : Option Nat)
  | Entry (state : Option Value)
  | ListWidget (state : Option Value) (deep_type : Argument)
  | Tree (state : Option Value)
  deriving Repr, DecidableEq

/-- The result of `handler.with_argument(arg)`: the handler bound to its
originating descriptor. -/
structure WidgetBinding where
  handler : WidgetHandler
  argument : Argument
  deriving Repr, DecidableEq

/-- `WidgetHandler.with_argument`: binds a handler to the descriptor it
was constructed from. -/
def WidgetHandler.with_argument (handler : WidgetHandler) (arg : Argument) :
    WidgetBinding :=
  { handler := handler, argument := arg }

/-- Python truthiness of `arg.widget_magnitude and arg.widget_magnitude > 1`:
`None` and `0` are falsy, so the test holds exactly when the magnitude is
present and greater than 1. -/
def magnitudeAboveOne : Option Nat → Bool
  | some n => decide (n > 1)
  | none => false

/-- `Widget.from_argument` (src/iotools/gui/widget/widget.py): the
dispatch chain, in source order — the `choices` test first, then the
dictionary-of-string-to-boolean test, then the `isinstance` chain by
kind, then the `TypeError` for anything else; the constructed handler is
bound to the descriptor with `with_argument` before being returned. -/
def Widget.from_argument (arg : Argument) : Except String WidgetBinding :=
  let handler : Except String WidgetHandler :=
    match arg.choices with
    | some cs => .ok (.DropDown cs arg.default)
    | none =>
      if arg.kind = .dict ∧ arg.deep_type_is_str_bool then
        .ok (.CheckBar arg.default)
      else
        match arg.kind with
        | .boolean => .ok (.Checkbox (arg.default.getD (.vBool false)))
        | .integer => .ok (.IntEntry arg.default)
        | .float => .ok (.FloatEntry arg.default)
        | .file => .ok (.FileSelect arg.default)
        | .dir => .ok (.DirSelect arg.default)
        | .dateTime => .ok (.DateTimeEdit arg.default arg.widget_magnitude)
        | .date => .ok (.Calendar arg.default)
        | .string =>
          .ok (if magnitudeAboveOne arg.widget_magnitude then
                 .Text arg.default arg.widget_magnitude
               else .Entry arg.default)
        | .list => .ok (.ListWidget arg.default arg)
        | .dict => .ok (.Tree arg.default)
        | .other name => .error ("Do not know how to handle " ++ name)
  handler.map fun h => h.with_argument arg

/-- A Python function object: its metadata (`__name__`, `__doc__`) and a
code identity distinguishing different function bodies. -/
structure Func where
  name : String
  doc : String
  code : Nat
  deriving Repr, DecidableEq

/-- A class member as seen by `FunctionSpec.__init__`
(src/iotools/misc/script.py): a plain function (for which
`inspect.isfunction` is true), a `staticmethod` wrapper, a `classmethod`
wrapper, any other object that exposes a `__func__` attribute (for
example a bound method), or any other object without `__func__`
(carrying its type name for the `AttributeError` message). -/
inductive PyMember : Type where
  | function : Func → PyMember
  | staticmethod : Func → PyMember
  | classmethod : Func → PyMember
  | otherWithFunc : Func → PyMember
  | otherNoFunc : String → PyMember
  deriving Repr, DecidableEq

/-- `FunctionSpec.FunctionType` (src/iotools/misc/script.py). -/
inductive FunctionType : Type where
  | INSTANCE
  | STATIC
  | CLASS
  | UNKNOWN
  deriving Repr, DecidableEq

/-- The record built by `FunctionSpec.__init__`: the owning class name,
the qualified member name, the underlying function, and the call-kind. -/
structure FunctionSpec where
  class_ : String
  name : String
  func : Func
  type : FunctionType
  deriving Repr, DecidableEq

/-- `inspect.isfunction(parent_reference)`: true exactly for a plain
function reference. -/
def PyMember.isfunction : PyMember → Bool
  | .function _ => true
  | _ => false

/-- `parent_reference.__func__`: defined for `staticmethod` and
`classmethod` wrappers and for other objects that expose the attribute;
raises `AttributeError` otherwise.  The plain-function case is included
because the source only reads `__func__` when `inspect.isfunction` is
false. -/
def PyMember.dunder_func : PyMember → Except String Func
  | .function f => .ok f
  | .staticmethod f => .ok f
  | .classmethod f => .ok f
  | .otherWithFunc f => .ok f
  | .otherNoFunc typeName =>
    .error ("AttributeError: " ++ typeName ++ " object has no attribute __func__")

/-- `FunctionSpec.__init__` (src/iotools/misc/script.py lines 24-39):
stores the owning class, the qualified name `parent.__name__ + "." + name`,
and the underlying function (`parent_reference` itself when it is a plain
function, else `parent_reference.__func__` — which raises
`AttributeError` when the member has no `__func__`); the call-kind is
`INSTANCE` for a plain function, `STATIC` for a `staticmethod` wrapper,
`CLASS` for a `classmethod` wrapper, and `UNKNOWN` otherwise. -/
def FunctionSpec.init (parent name : String) (parent_reference : PyMember) :
    Except String FunctionSpec :=
  let ref_is_func := parent_reference.isfunction
  (if ref_is_func then
     match parent_reference with
     | .function f => Except.ok f
     | m => m.dunder_func
   else parent_reference.dunder_func).map fun f =>
    { class_ := parent
      name := parent ++ "." ++ name
      func := f
      type :=
        if ref_is_func then .INSTANCE
        else
          match parent_reference with
          | .staticmethod _ => .STATIC
          | .classmethod _ => .CLASS
          | _ => .UNKNOWN }

/-- `spec.is_instance`. -/
def FunctionSpec.is_instance (spec : FunctionSpec) : Bool :=
  spec.type = .INSTANCE

/-- `spec.is_static`. -/
def FunctionSpec.is_static (spec : FunctionSpec) : Bool :=
  spec.type = .STATIC

/-- `spec.is_class`. -/
def FunctionSpec.is_class (spec : FunctionSpec) : Bool :=
  spec.type = .CLASS

/-- `spec.is_bound`. -/
def FunctionSpec.is_bound (spec : FunctionSpec) : Bool :=
  spec.is_instance || spec.is_class

/-- The member object produced by `FunctionSpec.wrap`: a plain function,
a `staticmethod` wrapper, or a `classmethod` wrapper around the
replacement callable. -/
inductive Wrapped : Type where
  | function : Func → Wrapped
  | staticmethod : Func → Wrapped
  | classmethod : Func → Wrapped
  deriving Repr, DecidableEq

/-- `functools.wraps(orig)(replacement)`: copies the original function
metadata (`__name__`, `__doc__`) onto the replacement callable. -/
def functools_wraps (orig replacement : Func) : Func :=
  { replacement with name := orig.name, doc := orig.doc }

/-- `FunctionSpec.wrap` (src/iotools/misc/script.py lines 41-51):
re-applies the wrapper kind recorded at classification time to the new
callable (plain function for `INSTANCE`, `staticmethod` for `STATIC`,
`classmethod` for `CLASS`), raising `ValueError` naming the record for
`UNKNOWN`, then copies the original metadata via `functools.wraps`. -/
def FunctionSpec.wrap (spec : FunctionSpec) (func : Func) : Except String Wrapped :=
  if spec.is_instance then
    .ok (.function (functools_wraps spec.func func))
  else if spec.is_static then
    .ok (.staticmethod (functools_wraps spec.func func))
  else if spec.is_class then
    .ok (.classmethod (functools_wraps spec.func func))
  else
    .error ("ValueError: Do not know function type of FunctionSpec " ++ spec.name)

/-- Python attribute access and call through an instance of the owning
class: a plain function fetched from an instance binds the instance as
implicit first argument, a `staticmethod` passes the argument list
through unchanged, and a `classmethod` binds the owning class.  Returns
the function actually invoked and the full argument list it receives
(instance, class and explicit arguments modelled as strings). -/
def member_call (member : Wrapped) (inst cls : String) (args : List String) :
    Func × List String :=
  match member with
  | .function f => (f, inst :: args)
  | .staticmethod f => (f, args)
  | .classmethod f => (f, cls :: args)

/-- State of one `Script` instance during construction: its active
logger, the `serialize` class flag, and the keyword arguments captured
on entry (`script.arguments = kwargs`). -/
structure ScriptState where
  log : NestedPrintLog
  serialize : Bool
  arguments : List (String × String)
  deriving Repr, DecidableEq

/-- `traceback.format_exc()` for the captured exception: the full trace
text, modelled as a rendering determined by the exception. -/
def traceback_format_exc (exc : String) : String :=
  "Traceback (most recent call last): " ++ exc

/-- The entry steps of `init_wrapper` (src/iotools/misc/script.py lines
133-143): the keyword arguments are captured verbatim, and a fresh
`NestedPrintLog` with constructor defaults is installed as the run
logger (and as the profiler logger — both aliases of the state field
`log`).  The dated log path computed on lines 136-142 by the external
path machinery is abstracted as `log_path`. -/
def constructor_enter (kwargs : List (String × String)) (log_path : String)
    (script : ScriptState) : ScriptState :=
  { script with
    arguments := kwargs
    log := NestedPrintLog.init log_path true true true "    " }

/-- The `except` branch of `init_wrapper` (lines 149-151): the captured
exception trace is written with `to_stream=False` and `to_file` left to
default. -/
def write_trace (now exc : String) (script : ScriptState) : ScriptState :=
  { script with
    log := script.log.write now (traceback_format_exc exc) (some false) none 0 }

/-- `ScriptMeta._constructor_wrapper`'s `init_wrapper`
(src/iotools/misc/script.py lines 131-159): capture kwargs, install the
fresh logger, run the wrapped constructor body catching any exception
(writing its trace to the log with `to_stream=False`), then, if the
`serialize` flag is set, run the serialization step (the external
pickling collaborator, `script.log.file.new_rename(...).content =
script`, abstracted as `serialize_object` and itself able to raise), and
finally re-raise the captured exception if there was one.  A raise from
the serialization step propagates immediately — the `raise exception`
statement is never reached in that case. -/
def constructor_wrapper
    (body serialize_object : ScriptState → PyResult ScriptState)
    (now : String) (kwargs : List (String × String)) (log_path : String)
    (script : ScriptState) : PyResult ScriptState :=
  let entered := constructor_enter kwargs log_path script
  let afterTry : Option String × ScriptState :=
    match body entered with
    | .ok s => (none, s)
    | .raised exc s => (some exc, write_trace now exc s)
  match (if afterTry.2.serialize then serialize_object afterTry.2 else .ok afterTry.2) with
  | .raised exc2 s2 => .raised exc2 s2
  | .ok s2 =>
    match afterTry.1 with
    | some exc => .raised exc s2
    | none => .ok s2

/-- C1: the indentation scope of `NestedPrintLog` does NOT guarantee the
decrement when the block raises — the generator has no try/finally, so a
block that raises leaves `indentation_level` at 1 when it was 0 before
entry, contradicting the claimed guarantee (the normal-exit decrement,
shown in the first conjunct, does work). -/
theorem indentation_scope_leaks_on_exception :
    ((NestedPrintLog.init "run.txt" true true true "    ").indentation
        (fun s => PyResult.ok s)).state.indentation_level = 0
  ∧ (NestedPrintLog.init "run.txt" true true true "    ").indentation_level = 0
  ∧ ((NestedPrintLog.init "run.txt" true true true "    ").indentation
        (fun s => PyResult.raised "RuntimeError" s)).state.indentation_level = 1 :=
  ⟨rfl, rfl, rfl⟩

/-- C2: the channel-flag scope of `NestedPrintLog` does NOT guarantee
the restore when the block raises — the generator has no try/finally, so
a block that sets `to_stream := false` and then raises leaves
`to_stream = false` although it was `true` on entry (the normal-exit
restore, shown in the first conjunct, does work). -/
theorem reset_channels_scope_leaks_on_exception :
    ((NestedPrintLog.init "run.txt" true true true "    ").reset_output_channels_soon
        (fun s => PyResult.ok { s with to_stream := false })).state.to_stream = true
  ∧ (NestedPrintLog.init "run.txt" true true true "    ").to_stream = true
  ∧ ((NestedPrintLog.init "run.txt" true true true "    ").reset_output_channels_soon
        (fun s => PyResult.raised "RuntimeError" { s with to_stream := false })).state.to_stream
      = false :=
  ⟨rfl, rfl, rfl⟩

/-- C4: a descriptor with a non-empty choice set is always dispatched to
a `DropDown` seeded with the choices and the default, regardless of its
declared kind, and the returned handle is bound to the descriptor. -/
theorem from_argument_choices_always_dropdown (kind : ArgKind) (c : Value)
    (cs : List Value) (d : Option Value) (m : Option Nat) (flag : Bool) :
    Widget.from_argument ⟨kind, some (c :: cs), d, m, flag⟩ =
      .ok ⟨.DropDown (c :: cs) d, ⟨kind, some (c :: cs), d, m, flag⟩⟩ :=
  rfl

/-- C7: a string descriptor without choices yields a multi-line `Text`
handle when its magnitude hint is present and greater than 1 (any
`n + 2`), and a single-line `Entry` handle when the hint is absent or
equal to 1. -/
theorem from_argument_string_magnitude (d : Option Value) (flag : Bool) (n : Nat) :
    (Widget.from_argument ⟨.string, none, d, some (n + 2), flag⟩ =
       .ok ⟨.Text d (some (n + 2)), ⟨.string, none, d, some (n + 2), flag⟩⟩)
  ∧ (Widget.from_argument ⟨.string, none, d, none, flag⟩ =
       .ok ⟨.Entry d, ⟨.string, none, d, none, flag⟩⟩)
  ∧ (Widget.from_argument ⟨.string, none, d, some 1, flag⟩ =
       .ok ⟨.Entry d, ⟨.string, none, d, some 1, flag⟩⟩) := by
  have hm : magnitudeAboveOne (some (n + 2)) = true := by
    simp only [magnitudeAboveOne, decide_eq_true_eq]
    omega
  refine ⟨?_, ?_, ?_⟩ <;>
    simp [Widget.from_argument, WidgetHandler.with_argument, magnitudeAboveOne, hm,
      Except.map]

/-- C5 counterexample: classifying a member that is neither a plain
function nor a static/class-method wrapper and exposes no `__func__`
attribute does not produce an `UNKNOWN` record — the classifier raises
`AttributeError` while reading `parent_reference.__func__`. -/
theorem classifier_no_dunder_func_counterexample :
    FunctionSpec.init "Cls" "member" (.otherNoFunc "int") =
      .error "AttributeError: int object has no attribute __func__" :=
  rfl

/-- C5 (amended): a plain function is classified as call-kind instance,
a static-method wrapper as static, a class-method wrapper as class, and
any other member that exposes a `__func__` attribute as unknown; a
member without `__func__` makes the classifier raise `AttributeError`
instead of classifying it. -/
theorem classifier_call_kinds (parent name : String) (f : Func) (typeName : String) :
    (FunctionSpec.init parent name (.function f) =
       .ok ⟨parent, parent ++ "." ++ name, f, .INSTANCE⟩)
  ∧ (FunctionSpec.init parent name (.staticmethod f) =
       .ok ⟨parent, parent ++ "." ++ name, f, .STATIC⟩)
  ∧ (FunctionSpec.init parent name (.classmethod f) =
       .ok ⟨parent, parent ++ "." ++ name, f, .CLASS⟩)
  ∧ (FunctionSpec.init parent name (.otherWithFunc f) =
       .ok ⟨parent, parent ++ "." ++ name, f, .UNKNOWN⟩)
  ∧ (FunctionSpec.init parent name (.otherNoFunc typeName) =
       .error ("AttributeError: " ++ typeName ++ " object has no attribute __func__")) :=
  ⟨rfl, rfl, rfl, rfl, rfl⟩

/-- C6: `wrap` re-applies the recorded wrapper kind to the replacement
callable — so a wrapped instance method still receives the instance as
first argument, a wrapped static method receives no implicit first
argument, and a wrapped class method receives the owning class — and the
replacement carries the original metadata; for an `UNKNOWN` record,
`wrap` raises `ValueError` naming the record. -/
theorem wrap_preserves_call_kind (owner fullname : String) (f0 g : Func)
    (inst cls : String) (args : List String) :
    (FunctionSpec.wrap ⟨owner, fullname, f0, .INSTANCE⟩ g =
        .ok (.function (functools_wraps f0 g))
      ∧ (member_call (.function (functools_wraps f0 g)) inst cls args).2 = inst :: args)
  ∧ (FunctionSpec.wrap ⟨owner, fullname, f0, .STATIC⟩ g =
        .ok (.staticmethod (functools_wraps f0 g))
      ∧ (member_call (.staticmethod (functools_wraps f0 g)) inst cls args).2 = args)
  ∧ (FunctionSpec.wrap ⟨owner, fullname, f0, .CLASS⟩ g =
        .ok (.classmethod (functools_wraps f0 g))
      ∧ (member_call (.classmethod (functools_wraps f0 g)) inst cls args).2 = cls :: args)
  ∧ ((functools_wraps f0 g).name = f0.name ∧ (functools_wraps f0 g).doc = f0.doc
      ∧ (functools_wraps f0 g).code = g.code)
  ∧ (FunctionSpec.wrap ⟨owner, fullname, f0, .UNKNOWN⟩ g =
       .error ("ValueError: Do not know function type of FunctionSpec " ++ fullname)) :=
  ⟨⟨rfl, rfl⟩, ⟨rfl, rfl⟩, ⟨rfl, rfl⟩, ⟨rfl, rfl, rfl⟩, rfl⟩

/-- C8: each destination flag of `NestedPrintLog.write`, when omitted,
falls back to the logger's configured default; when the stream
destination is taken, the raw text is emitted unchanged on the stream
channel; when the file destination is taken, the file channel receives
the text with every non-empty line prefixed by the timestamp and the
indentation token repeated `indentation_level` times, and empty lines
left unprefixed. -/
theorem write_defaults_and_channel_formats (log : NestedPrintLog) (now text : String) :
    (log.write now text none none 0 =
       log.write now text (some log.to_stream) (some log.to_file) 0)
  ∧ (∀ tf : Option Bool,
       (log.write now text (some true) tf 0).stream_out = log.stream_out ++ [text])
  ∧ (∀ ts : Option Bool,
       (log.write now text ts (some true) 0).file_out =
         log.file_out ++
           [String.intercalate "\n" ((text.splitOn "\n").map fun line =>
             if line = "" then ""
             else (now ++ " - " ++ strRepeat log.indentation_token log.indentation_level)
                    ++ line)]) := by
  refine ⟨?_, fun tf => ?_, fun ts => ?_⟩
  · cases hs : log.to_stream <;> cases hf : log.to_file <;>
      simp [NestedPrintLog.write, PrintLog.write, hs, hf]
  · cases tf with
    | none =>
      cases hf : log.to_file <;>
        simp [NestedPrintLog.write, PrintLog.write, strRepeat, hf, String.append_empty]
    | some b =>
      cases b <;>
        simp [NestedPrintLog.write, PrintLog.write, strRepeat, String.append_empty]
  · cases ts with
    | none =>
      cases hs : log.to_stream <;>
        simp [NestedPrintLog.write, PrintLog.write, NestedPrintLog.file_render, strRepeat,
          hs, String.append_empty]
    | some b =>
      cases b <;>
        simp [NestedPrintLog.write, PrintLog.write, NestedPrintLog.file_render, strRepeat,
          String.append_empty]

/-- Helper: binding a successfully constructed handler to its descriptor
records exactly that descriptor. -/
theorem map_with_argument_ok (arg : Argument) (e : Except String WidgetHandler)
    (binding : WidgetBinding)
    (h : (e.map fun h0 => h0.with_argument arg) = .ok binding) :
    binding.argument = arg := by
  cases e with
  | error s => simp [Except.map] at h
  | ok w =>
    simp [Except.map] at h
    rw [← h]
    rfl

/-- C9: a descriptor whose kind matches no dispatch rule makes
`Widget.from_argument` fail with a type error naming the unhandled
descriptor and no widget binding is produced; every successfully
returned handle is bound to its originating descriptor. -/
theorem from_argument_unknown_kind_and_binding :
    (∀ (name : String) (d : Option Value) (m : Option Nat) (flag : Bool),
       Widget.from_argument ⟨.other name, none, d, m, flag⟩ =
         .error ("Do not know how to handle " ++ name))
  ∧ (∀ (arg : Argument) (binding : WidgetBinding),
       Widget.from_argument arg = .ok binding → binding.argument = arg) := by
  constructor
  · intro name d m flag
    simp [Widget.from_argument, Except.map]
  · intro arg binding h
    exact map_with_argument_ok arg _ binding h

/-- Concrete descriptor used to witness the binding half of C9. -/
def from_argument_example_arg : Argument :=
  ⟨.integer, none, some (.vInt 5), none, false⟩

/-- The binding `Widget.from_argument` produces for
`from_argument_example_arg`. -/
def from_argument_example_binding : WidgetBinding :=
  ⟨.IntEntry (some (.vInt 5)), from_argument_example_arg⟩

/-- Witness for C9 at a concrete integer descriptor. -/
theorem from_argument_unknown_kind_and_binding_witness :
    Widget.from_argument from_argument_example_arg = .ok from_argument_example_binding
  ∧ from_argument_example_binding.argument = from_argument_example_arg :=
  ⟨rfl,
   from_argument_unknown_kind_and_binding.2 from_argument_example_arg
     from_argument_example_binding rfl⟩

/-- C3: when the wrapped constructor body raises, the exception is
captured, its trace is written with the stream destination disabled for
that write (the stream channel is untouched) and lands on the file
channel when the logger's file flag is on, then — after the optional
serialization step completes normally — the very same exception is
re-raised to the caller; it is never swallowed. -/
theorem constructor_exception_traced_and_reraised
    (body serialize_object : ScriptState → PyResult ScriptState)
    (now : String) (kwargs : List (String × String)) (log_path : String)
    (script : ScriptState) (exc : String) (s s2 : ScriptState)
    (hbody : body (constructor_enter kwargs log_path script) = .raised exc s)
    (hser : (if (write_trace now exc s).serialize
             then serialize_object (write_trace now exc s)
             else .ok (write_trace now exc s)) = .ok s2) :
    constructor_wrapper body serialize_object now kwargs log_path script = .raised exc s2
  ∧ (write_trace now exc s).log.stream_out = s.log.stream_out
  ∧ (s.log.to_file = true →
       (write_trace now exc s).log.file_out =
         s.log.file_out ++ [s.log.file_render now (traceback_format_exc exc)]) := by
  refine ⟨?_, ?_, ?_⟩
  · simp only [constructor_wrapper, hbody]
    rw [hser]
  · cases hf : s.log.to_file <;>
      simp [write_trace, NestedPrintLog.write, PrintLog.write, hf]
  · intro hf
    simp [write_trace, NestedPrintLog.write, PrintLog.write, hf, strRepeat,
      String.append_empty]

/-- Concrete script state used to witness C3 and C10: `serialize` is
set and the logger has constructor defaults. -/
def script_state_example : ScriptState :=
  { log := NestedPrintLog.init "old.txt" true true true "    "
    serialize := true
    arguments := [] }

/-- A constructor body that raises immediately. -/
def body_raising : ScriptState → PyResult ScriptState :=
  fun s => .raised "RuntimeError" s

/-- A serialization step that completes normally. -/
def serialize_ok : ScriptState → PyResult ScriptState :=
  fun s => .ok s

/-- Witness for C3 at a concrete raising body with a successful
serialization step. -/
theorem constructor_exception_traced_and_reraised_witness :
    constructor_wrapper body_raising serialize_ok "ts" [] "run.txt" script_state_example =
      .raised "RuntimeError"
        (write_trace "ts" "RuntimeError" (constructor_enter [] "run.txt" script_state_example))
  ∧ (write_trace "ts" "RuntimeError"
        (constructor_enter [] "run.txt" script_state_example)).log.stream_out =
      (constructor_enter [] "run.txt" script_state_example).log.stream_out
  ∧ (write_trace "ts" "RuntimeError"
        (constructor_enter [] "run.txt" script_state_example)).log.file_out =
      (constructor_enter [] "run.txt" script_state_example).log.file_out ++
        [(constructor_enter [] "run.txt" script_state_example).log.file_render "ts"
          (traceback_format_exc "RuntimeError")] := by
  have h := constructor_exception_traced_and_reraised body_raising serialize_ok "ts" []
    "run.txt" script_state_example "RuntimeError"
    (constructor_enter [] "run.txt" script_state_example)
    (write_trace "ts" "RuntimeError" (constructor_enter [] "run.txt" script_state_example))
    rfl rfl
  exact ⟨h.1, h.2.1, h.2.2 rfl⟩

/-- C10: when the constructor body has raised and the serialization step
itself raises, the serialization failure propagates to the caller and
the originally captured constructor exception is never re-raised. -/
theorem serialization_failure_shadows_constructor_exception
    (body serialize_object : ScriptState → PyResult ScriptState)
    (now : String) (kwargs : List (String × String)) (log_path : String)
    (script : ScriptState) (exc exc2 : String) (s s2 : ScriptState)
    (hbody : body (constructor_enter kwargs log_path script) = .raised exc s)
    (hflag : (write_trace now exc s).serialize = true)
    (hser : serialize_object (write_trace now exc s) = .raised exc2 s2) :
    constructor_wrapper body serialize_object now kwargs log_path script = .raised exc2 s2
  ∧ (∀ s3 : ScriptState, exc2 ≠ exc →
       constructor_wrapper body serialize_object now kwargs log_path script ≠
         .raised exc s3) := by
  have h1 : constructor_wrapper body serialize_object now kwargs log_path script =
      .raised exc2 s2 := by
    simp only [constructor_wrapper, hbody, hflag, if_true]
    rw [hser]
  refine ⟨h1, fun s3 hne heq => ?_⟩
  rw [h1] at heq
  injection heq with h2 h3
  exact hne h2

/-- A serialization step that raises. -/
def serialize_failing : ScriptState → PyResult ScriptState :=
  fun s => .raised "PicklingError" s

/-- Witness for C10 at a concrete raising body with a failing
serialization step: the pickling error is what the caller sees, not the
constructor exception. -/
theorem serialization_failure_shadows_constructor_exception_witness :
    constructor_wrapper body_raising serialize_failing "ts" [] "run.txt" script_state_example =
      .raised "PicklingError"
        (write_trace "ts" "RuntimeError" (constructor_enter [] "run.txt" script_state_example))
  ∧ constructor_wrapper body_raising serialize_failing "ts" [] "run.txt" script_state_example ≠
      .raised "RuntimeError"
        (write_trace "ts" "RuntimeError" (constructor_enter [] "run.txt" script_state_example)) := by
  have h := serialization_failure_shadows_constructor_exception body_raising serialize_failing
    "ts" [] "run.txt" script_state_example "RuntimeError" "PicklingError"
    (constructor_enter [] "run.txt" script_state_example)
    (write_trace "ts" "RuntimeError" (constructor_enter [] "run.txt" script_state_example))
    rfl rfl rfl
  exact ⟨h.1, h.2 _ (by decide)⟩
